import Mathlib

/-!
Shallow embedding of the playback-session controller of `src/main.rs`
(an interactive terminal MP3 player).

Timestamps (`Instant`) are modelled as nanosecond counts (`Nat`);
`Instant.duration_since` saturates at zero (truncated `Nat` subtraction)
and `Duration.as_secs` is integer division by 10^9, as in the Rust
standard library.  The `AtomicU64` field `elapsed_seconds` wraps modulo
2^64 on `fetch_add`/`store`, made explicit with `% U64LIM`.

The background player thread (`spawn_player_thread`) is modelled as a
step function over the session state driven by one `LoopInput` per loop
iteration: the polled terminal event (if any), the wall-clock instants
observed inside the iteration, and whether `sink.empty()` returned true.
All writes to the session state happen on this single thread in the
source program, so the sequential fold is a faithful model of every
interleaving of those writes.
-/

namespace Player

/-- 2^64, the wrap-around modulus of the `AtomicU64` counter. -/
def U64LIM : Nat := 2 ^ 64

/-- Nanoseconds per second, used by `Duration.as_secs`. -/
def NANOS : Nat := 1000000000

/-- `Instant::duration_since`: saturating (truncated) subtraction of
nanosecond timestamps; zero when `earlier` is later than `now`.  Total,
so it never panics. -/
def duration_since (now earlier : Nat) : Nat := now - earlier

/-- `Duration::as_secs`: whole seconds of a nanosecond duration. -/
def as_secs (d : Nat) : Nat := d / NANOS

/-- Model of `PlayerState` (src/main.rs lines 21-28).  The `sink` handle
is modelled by the two observable facts the session controls about it:
whether it is paused (`sink.pause()`/`sink.play()`) and whether
`sink.stop()` was called. -/
structure PState where
  sinkPaused : Bool
  sinkStopped : Bool
  is_paused : Bool
  is_finished : Bool
  elapsed_seconds : Nat
  start_time : Nat
  last_resume_time : Nat
  deriving DecidableEq

/-- Model of `create_player_state` (lines 106-116): both timestamps start
at the creation instant, all flags false, counter zero. -/
def create_player_state (now : Nat) : PState :=
  ⟨false, false, false, false, 0, now, now⟩

/-- Model of `resume_playback` (lines 162-171): `sink.play()` and record
`current_time` as the last resume instant. -/
def resume_playback (s : PState) (current_time : Nat) : PState :=
  { s with sinkPaused := false, last_resume_time := current_time }

/-- Model of `pause_playback` (lines 173-187): `sink.pause()`, then add
`current_time.duration_since(last_resume).as_secs()` to the
`elapsed_seconds` counter (`fetch_add` wraps modulo 2^64). -/
def pause_playback (s : PState) (current_time : Nat) : PState :=
  let additional_elapsed := as_secs (duration_since current_time s.last_resume_time)
  { s with sinkPaused := true,
           elapsed_seconds := (s.elapsed_seconds + additional_elapsed) % U64LIM }

/-- Model of `toggle_pause` (lines 152-160): `fetch_xor` flips
`is_paused` and returns the previous value, which selects the resume or
the pause path. -/
def toggle_pause (s : PState) (current_time : Nat) : PState :=
  let was_paused := s.is_paused
  let s1 := { s with is_paused := !was_paused }
  if was_paused then resume_playback s1 current_time
  else pause_playback s1 current_time

/-- Model of `update_elapsed_time` (lines 189-194): while not paused,
`store` the whole seconds of `start_time.elapsed()` into the counter. -/
def update_elapsed_time (s : PState) (now : Nat) : PState :=
  if s.is_paused then s
  else { s with elapsed_seconds := as_secs (duration_since now s.start_time) % U64LIM }

/-- `crossterm::event::KeyEventKind` (press / release / repeat). -/
inductive KeyEventKind where
  | press
  | release
  | rep
  deriving DecidableEq

/-- `crossterm::event::KeyCode`: a character key, or any of the other
(non-character) key codes, which the source's `match` treats uniformly
through its catch-all arm. -/
inductive KeyCode where
  | char (c : Char)
  | nonChar
  deriving DecidableEq

/-- A terminal event as seen by `handle_events`: a key event with a code
and a kind, or any non-key event (resize, mouse, ...). -/
inductive TermEvent where
  | key (code : KeyCode) (kind : KeyEventKind)
  | nonKey
  deriving DecidableEq

/-- Model of `handle_events` (lines 133-150).  `ev` is the result of one
poll: `none` when `event::poll` timed out or `event::read` failed.
Returns the updated state and the `bool` the Rust function returns
(`true` exactly on the quit path).  `eventTime` is the `Instant::now()`
captured inside `toggle_pause`. -/
def handle_events (s : PState) (ev : Option TermEvent) (eventTime : Nat) :
    PState × Bool :=
  match ev with
  | some (TermEvent.key code kind) =>
    if kind = KeyEventKind.press then
      match code with
      | KeyCode.char c =>
        if c = ' ' then (toggle_pause s eventTime, false)
        else if c = 'q' then
          ({ s with sinkStopped := true, is_finished := true }, true)
        else (s, false)
      | KeyCode.nonChar => (s, false)
    else (s, false)
  | some TermEvent.nonKey => (s, false)
  | none => (s, false)

/-- The externally determined data of one iteration of the background
loop: the polled event, the instant observed inside `toggle_pause`, the
instant observed by `update_elapsed_time`, and the value `sink.empty()`
returns this iteration. -/
structure LoopInput where
  ev : Option TermEvent
  eventTime : Nat
  tickTime : Nat
  sinkEmpty : Bool
  deriving DecidableEq

/-- One iteration of the loop body in `spawn_player_thread` (lines
118-131): handle events (breaking on quit), update elapsed time, then
check `sink.empty()` and on exhaustion set `is_finished` and break.
Returns the state and whether the loop breaks. -/
def player_step (s : PState) (inp : LoopInput) : PState × Bool :=
  let r := handle_events s inp.ev inp.eventTime
  if r.2 then (r.1, true)
  else
    let s2 := update_elapsed_time r.1 inp.tickTime
    if inp.sinkEmpty then ({ s2 with is_finished := true }, true)
    else (s2, false)

/-- Run the background loop over a finite list of iteration inputs,
stopping early when an iteration breaks.  The boolean records whether
the loop broke within the list. -/
def player_run (s : PState) : List LoopInput → PState × Bool
  | [] => (s, false)
  | i :: is =>
    let r := player_step s i
    if r.2 then (r.1, true) else player_run r.1 is

/-- The sequence of states after each executed loop iteration (the run
stops at the first breaking iteration). -/
def player_trace (s : PState) : List LoopInput → List PState
  | [] => []
  | i :: is =>
    let r := player_step s i
    if r.2 then [r.1] else r.1 :: player_trace r.1 is

/-- `true` iff no state in the list has `is_finished` set. -/
def allNotFinished : List PState → Bool
  | [] => true
  | t :: ts => !t.is_finished && allNotFinished ts

/-- Rust's `{:02}` formatting of a natural number: decimal, zero-padded
to width 2 (numbers of three or more digits print in full). -/
def fmtWidth2Zero (n : Nat) : String :=
  if n < 10 then "0" ++ toString n else toString n

/-- The elapsed-time rendering computed by `pause_playback` (lines
178-185): `format!("{}:{:02}", total / 60, total % 60)`. -/
def renderElapsed (total : Nat) : String :=
  let minutes := total / 60
  let seconds := total % 60
  toString minutes ++ ":" ++ fmtWidth2Zero seconds

/-- The full status line printed on pause (line 185). -/
def pauseMessage (total : Nat) : String :=
  "Paused at " ++ renderElapsed total

/-- Sum, in whole seconds, of the durations of a list of
`(resumedAt, pausedAt)` playing intervals given in nanoseconds.  This
definition follows the claim's words ("the sum of the durations of the
playing intervals only") and is used only to compare the specified
accounting against what the code computes. -/
def specPlayingIntervalSum (intervals : List (Nat × Nat)) : Nat :=
  (intervals.map fun p => (p.2 - p.1) / NANOS).sum

/-- Outcome of one fallible step of `play_mp3` or its callees. -/
inductive StepResult where
  | ok
  | err
  deriving DecidableEq

/-- The outcomes the environment assigns to each fallible call made by
`play_mp3` (lines 65-83): `OutputStream::try_default`, `create_sink`
(file open + decode + sink creation), `enable_raw_mode`,
`setup_display`, and the two halves of `cleanup_display`
(`disable_raw_mode`, then the screen-clearing `execute!`). -/
structure PlayEnv where
  deviceOpen : StepResult
  sinkCreate : StepResult
  rawEnable : StepResult
  displaySetup : StepResult
  rawDisable : StepResult
  displayClear : StepResult
  deriving DecidableEq

/-- What a `play_mp3` invocation did: whether raw mode was entered,
whether it was disabled again, whether the transient display was
cleared, whether the background thread was spawned, whether it was
joined, and whether the invocation returned an error. -/
structure PlayOutcome where
  rawEntered : Bool
  rawDisabled : Bool
  displayCleared : Bool
  threadSpawned : Bool
  threadJoined : Bool
  isErr : Bool
  deriving DecidableEq

/-- Model of the control flow of `play_mp3` (lines 65-83), with every
`?` early return made explicit in source order: device open, sink
creation, `enable_raw_mode`, `setup_display`, then state creation and
thread spawn, the foreground wait (infallible), `cleanup_display`
(`disable_raw_mode` then screen clear, each fallible with `?`), and
finally the `join`. -/
def play_mp3 (env : PlayEnv) : PlayOutcome :=
  if env.deviceOpen = StepResult.err then
    ⟨false, false, false, false, false, true⟩
  else if env.sinkCreate = StepResult.err then
    ⟨false, false, false, false, false, true⟩
  else if env.rawEnable = StepResult.err then
    ⟨false, false, false, false, false, true⟩
  else if env.displaySetup = StepResult.err then
    ⟨true, false, false, false, false, true⟩
  else if env.rawDisable = StepResult.err then
    ⟨true, false, false, true, false, true⟩
  else if env.displayClear = StepResult.err then
    ⟨true, true, false, true, false, true⟩
  else
    ⟨true, true, true, true, true, false⟩

/-- Claim C1 (code bug): a session that ticks once at t = 5 s while
playing and then pauses at t = 5 s ends with `elapsed_seconds = 10`,
while the only playing interval, (0, 5 s), sums to 5 seconds: the tick
stores wall-clock-since-start and the pause adds the same interval
again, so the accumulated total does not equal the sum of the playing
intervals. -/
theorem c1_elapsed_double_counts :
    (player_run (create_player_state 0)
      [⟨none, 0, 5 * NANOS, false⟩,
       ⟨some (TermEvent.key (KeyCode.char ' ') KeyEventKind.press),
        5 * NANOS, 5 * NANOS, false⟩]).1.elapsed_seconds = 10
    ∧ specPlayingIntervalSum [(0, 5 * NANOS)] = 5
    ∧ (10 : Nat) ≠ 5 := by
  refine ⟨by decide, by decide, by decide⟩

/-- Claim C2 (code bug): over the iteration sequence "tick at 5 s,
pause at 5 s, resume at 8 s then tick at 9 s", the successive values of
`elapsed_seconds` are 5, 10, 9 — the value decreases from 10 to 9, so
`elapsed_seconds` is not monotonically non-decreasing. -/
theorem c2_elapsed_decreases :
    (player_trace (create_player_state 0)
      [⟨none, 0, 5 * NANOS, false⟩,
       ⟨some (TermEvent.key (KeyCode.char ' ') KeyEventKind.press),
        5 * NANOS, 5 * NANOS, false⟩,
       ⟨some (TermEvent.key (KeyCode.char ' ') KeyEventKind.press),
        8 * NANOS, 9 * NANOS, false⟩]).map
      (fun t => t.elapsed_seconds) = [5, 10, 9]
    ∧ ¬ (10 : Nat) ≤ 9 := by
  refine ⟨by decide, by decide⟩

/-- Claim C5 (code bug): when `setup_display` fails after
`enable_raw_mode` succeeded, `play_mp3` propagates the error with `?`
before `cleanup_display` ever runs, so this exit path entered raw mode
but never restored the terminal. -/
theorem c5_raw_mode_not_restored :
    (play_mp3 ⟨StepResult.ok, StepResult.ok, StepResult.ok,
               StepResult.err, StepResult.ok, StepResult.ok⟩).rawEntered = true
    ∧ (play_mp3 ⟨StepResult.ok, StepResult.ok, StepResult.ok,
                 StepResult.err, StepResult.ok, StepResult.ok⟩).rawDisabled = false
    ∧ (play_mp3 ⟨StepResult.ok, StepResult.ok, StepResult.ok,
                 StepResult.err, StepResult.ok, StepResult.ok⟩).isErr = true := by
  refine ⟨by decide, by decide, by decide⟩

/-- Claim C6 (code bug): when `cleanup_display` fails (here its
`disable_raw_mode` call) after the background thread was spawned,
`play_mp3` propagates the error with `?` before `player_thread.join()`,
so this return path spawned the loop thread but never joined it. -/
theorem c6_thread_not_joined :
    (play_mp3 ⟨StepResult.ok, StepResult.ok, StepResult.ok,
               StepResult.ok, StepResult.err, StepResult.ok⟩).threadSpawned = true
    ∧ (play_mp3 ⟨StepResult.ok, StepResult.ok, StepResult.ok,
                 StepResult.ok, StepResult.err, StepResult.ok⟩).threadJoined = false
    ∧ (play_mp3 ⟨StepResult.ok, StepResult.ok, StepResult.ok,
                 StepResult.ok, StepResult.err, StepResult.ok⟩).isErr = true := by
  refine ⟨by decide, by decide, by decide⟩

/-- Claim C7: if opening the audio output device fails, `play_mp3`
returns the error to the caller without entering raw mode and without
spawning the background thread (and its straight-line control flow has
no retry). -/
theorem c7_device_error_early_return (env : PlayEnv)
    (h : env.deviceOpen = StepResult.err) :
    (play_mp3 env).isErr = true
    ∧ (play_mp3 env).rawEntered = false
    ∧ (play_mp3 env).threadSpawned = false := by
  simp [play_mp3, h]

/-- Witness for C7 at a concrete environment whose device open fails. -/
theorem c7_witness :
    (play_mp3 ⟨StepResult.err, StepResult.ok, StepResult.ok,
               StepResult.ok, StepResult.ok, StepResult.ok⟩).isErr = true
    ∧ (play_mp3 ⟨StepResult.err, StepResult.ok, StepResult.ok,
                 StepResult.ok, StepResult.ok, StepResult.ok⟩).rawEntered = false
    ∧ (play_mp3 ⟨StepResult.err, StepResult.ok, StepResult.ok,
                 StepResult.ok, StepResult.ok, StepResult.ok⟩).threadSpawned = false :=
  c7_device_error_early_return
    ⟨StepResult.err, StepResult.ok, StepResult.ok,
     StepResult.ok, StepResult.ok, StepResult.ok⟩ rfl

/-- Claim C8: the rendered elapsed time is `total / 60` minutes and
`total % 60` seconds, the seconds field is always exactly two
characters (zero-padded), there is no hour rollover, and the six
spec totals render as stated. -/
theorem c8_render_elapsed :
    renderElapsed 0 = "0:00" ∧ renderElapsed 59 = "0:59"
    ∧ renderElapsed 60 = "1:00" ∧ renderElapsed 61 = "1:01"
    ∧ renderElapsed 3599 = "59:59" ∧ renderElapsed 3600 = "60:00"
    ∧ ∀ total : Nat,
        renderElapsed total
          = toString (total / 60) ++ ":" ++ fmtWidth2Zero (total % 60)
        ∧ (fmtWidth2Zero (total % 60)).length = 2 := by
  refine ⟨by decide, by decide, by decide, by decide, by decide, by decide,
          fun total => ⟨rfl, ?_⟩⟩
  have hlt : total % 60 < 60 := Nat.mod_lt _ (by decide)
  have hall : ∀ m : Nat, m < 60 → (fmtWidth2Zero m).length = 2 := by decide
  exact hall _ hlt

/-- Claim C3: `pause_playback` adds exactly the whole seconds of
`now - last_resume_time` to the accumulated total (given no `u64`
wrap), and when `now` precedes (or equals) `last_resume_time` the delta
saturates at zero and the total is unchanged — the model is a total
function, so no panic is possible, and a stale `last_resume_time` never
makes the counter underflow. -/
theorem c3_pause_delta_saturating (s : PState) (now : Nat)
    (hadd : s.elapsed_seconds + (now - s.last_resume_time) / NANOS < U64LIM) :
    (pause_playback s now).elapsed_seconds
        = s.elapsed_seconds + (now - s.last_resume_time) / NANOS
    ∧ (now ≤ s.last_resume_time →
        (pause_playback s now).elapsed_seconds = s.elapsed_seconds) := by
  constructor
  · show (s.elapsed_seconds + (now - s.last_resume_time) / NANOS) % U64LIM = _
    exact Nat.mod_eq_of_lt hadd
  · intro hle
    have h0 : now - s.last_resume_time = 0 := Nat.sub_eq_zero_of_le hle
    show (s.elapsed_seconds + (now - s.last_resume_time) / NANOS) % U64LIM = _
    rw [h0]
    exact Nat.mod_eq_of_lt (Nat.lt_of_le_of_lt (Nat.le_add_right _ _)
      (by rw [h0] at hadd; exact hadd))

/-- Witness for C3: pausing at instant 50 with `last_resume_time = 100`
(a later instant) leaves the accumulated total of 7 unchanged. -/
theorem c3_witness :
    (pause_playback ⟨false, false, true, false, 7, 0, 100⟩ 50).elapsed_seconds = 7 :=
  (c3_pause_delta_saturating ⟨false, false, true, false, 7, 0, 100⟩ 50
    (by decide)).2 (by decide)

/-- Claim C9: one poll yields — space press: the pause/resume toggle;
q press: stop the sink, set `is_finished`, and report quit; any other
character press, any non-character key press, any non-press key event,
any non-key event, and an empty poll: no command and no state change. -/
theorem c9_event_decoding (s : PState) (now : Nat) :
    handle_events s (some (TermEvent.key (KeyCode.char ' ')
        KeyEventKind.press)) now = (toggle_pause s now, false)
    ∧ handle_events s (some (TermEvent.key (KeyCode.char 'q')
        KeyEventKind.press)) now
        = ({ s with sinkStopped := true, is_finished := true }, true)
    ∧ (∀ c : Char, c ≠ ' ' → c ≠ 'q' →
        handle_events s (some (TermEvent.key (KeyCode.char c)
          KeyEventKind.press)) now = (s, false))
    ∧ handle_events s (some (TermEvent.key KeyCode.nonChar
        KeyEventKind.press)) now = (s, false)
    ∧ (∀ code kind, kind ≠ KeyEventKind.press →
        handle_events s (some (TermEvent.key code kind)) now = (s, false))
    ∧ handle_events s (some TermEvent.nonKey) now = (s, false)
    ∧ handle_events s none now = (s, false) := by
  refine ⟨rfl, rfl, fun c hsp hq => ?_, rfl, fun code kind hk => ?_, rfl, rfl⟩
  · simp [handle_events, hsp, hq]
  · simp [handle_events, hk]

/-- Witness for C9: at the freshly created session state, an x press
and a q release both yield no command and no state change. -/
theorem c9_witness :
    handle_events (create_player_state 0)
      (some (TermEvent.key (KeyCode.char 'x') KeyEventKind.press)) 0
      = (create_player_state 0, false)
    ∧ handle_events (create_player_state 0)
      (some (TermEvent.key (KeyCode.char 'q') KeyEventKind.release)) 0
      = (create_player_state 0, false) :=
  ⟨(c9_event_decoding (create_player_state 0) 0).2.2.1 'x'
      (by decide) (by decide),
   (c9_event_decoding (create_player_state 0) 0).2.2.2.2.1
      (KeyCode.char 'q') KeyEventKind.release (by decide)⟩

/-- Claim C10: one `toggle_pause` flips `is_paused`, two consecutive
calls restore it; when the flag was false exactly the pause path runs
(sink paused, the interval since `last_resume_time` accumulated,
`last_resume_time` untouched) and when it was true exactly the resume
path runs (sink playing, `last_resume_time` recorded, total
untouched). -/
theorem c10_toggle_involution (s : PState) (t1 t2 : Nat) :
    (toggle_pause s t1).is_paused = !s.is_paused
    ∧ (toggle_pause (toggle_pause s t1) t2).is_paused = s.is_paused
    ∧ (s.is_paused = false →
        toggle_pause s t1
          = { s with
              is_paused := true
              sinkPaused := true
              elapsed_seconds :=
                (s.elapsed_seconds + (t1 - s.last_resume_time) / NANOS)
                  % U64LIM })
    ∧ (s.is_paused = true →
        toggle_pause s t1
          = { s with
              is_paused := false
              sinkPaused := false
              last_resume_time := t1 }) := by
  obtain ⟨sp, ss, ip, fin, es, st, lr⟩ := s
  cases ip <;>
    simp [toggle_pause, pause_playback, resume_playback, duration_since,
          as_secs]

/-- Witness for C10: toggling the freshly created (playing) session at
t = 3 s runs the pause path, accumulating 3 seconds. -/
theorem c10_witness :
    toggle_pause (create_player_state 0) (3 * NANOS)
      = ⟨true, false, true, false, 3, 0, 0⟩ := by
  have h := (c10_toggle_involution (create_player_state 0) (3 * NANOS) 0).2.2.1
    (by decide)
  rw [h]
  decide

/-- `update_elapsed_time` never touches `is_finished`. -/
theorem update_elapsed_time_is_finished (s : PState) (now : Nat) :
    (update_elapsed_time s now).is_finished = s.is_finished := by
  unfold update_elapsed_time
  split <;> rfl

/-- `toggle_pause` never touches `is_finished`. -/
theorem toggle_pause_is_finished (s : PState) (now : Nat) :
    (toggle_pause s now).is_finished = s.is_finished := by
  cases hp : s.is_paused <;>
    simp [toggle_pause, resume_playback, pause_playback, hp]

/-- Whenever `handle_events` does not report quit, it leaves
`is_finished` unchanged (the quit arm is the only one that sets it, and
that arm returns `true`). -/
theorem handle_events_is_finished (s : PState) (ev : Option TermEvent)
    (now : Nat) (hb : (handle_events s ev now).2 = false) :
    (handle_events s ev now).1.is_finished = s.is_finished := by
  match ev with
  | none => rfl
  | some TermEvent.nonKey => rfl
  | some (TermEvent.key code kind) =>
    by_cases hk : kind = KeyEventKind.press
    · match code with
      | KeyCode.nonChar => simp [handle_events, hk]
      | KeyCode.char c =>
        by_cases hsp : c = ' '
        · simp [handle_events, hk, hsp, toggle_pause_is_finished]
        · by_cases hq : c = 'q'
          · simp [handle_events, hk, hsp, hq] at hb
          · simp [handle_events, hk, hsp, hq]
    · simp [handle_events, hk]

/-- A non-breaking iteration of the background loop leaves
`is_finished` false: the only two writes of `true` (the quit arm and
the `sink.empty()` arm) break the loop in the same iteration. -/
theorem player_step_not_finished (s : PState) (i : LoopInput)
    (h : s.is_finished = false) (hb : (player_step s i).2 = false) :
    (player_step s i).1.is_finished = false := by
  unfold player_step at hb ⊢
  rcases hhe : (handle_events s i.ev i.eventTime).2 with _ | _
  · simp only [hhe, if_false, Bool.false_eq_true]
    simp only [hhe, if_false, Bool.false_eq_true] at hb
    rcases hse : i.sinkEmpty with _ | _
    · simp only [hse, if_false, Bool.false_eq_true]
      rw [update_elapsed_time_is_finished, handle_events_is_finished s _ _ hhe]
      exact h
    · simp [hse] at hb
  · simp [hhe] at hb

/-- Claim C4: starting from any unfinished session state, every state
along the background loop's trace except possibly the final one has
`is_finished = false` — the flag transitions false→true at most once
(at the trace's last state, whether via `Quit` or via `sink.empty()`),
and the loop executes no further iteration, hence mutates no session
state, once the flag is true. -/
theorem c4_finished_at_most_once (inputs : List LoopInput) (s : PState)
    (h : s.is_finished = false) :
    allNotFinished ((s :: player_trace s inputs).dropLast) = true := by
  induction inputs generalizing s with
  | nil =>
    simp [player_trace, allNotFinished]
  | cons i is ih =>
    rcases hr : player_step s i with ⟨s1, b⟩
    have htr : player_trace s (i :: is)
        = if b then [s1] else s1 :: player_trace s1 is := by
      simp [player_trace, hr]
    cases b with
    | true =>
      rw [htr]
      simp [allNotFinished, h]
    | false =>
      have h1 : s1.is_finished = false := by
        have hb : (player_step s i).2 = false := by rw [hr]
        have := player_step_not_finished s i h hb
        rw [hr] at this
        exact this
      rw [htr]
      simp only [if_false, Bool.false_eq_true, List.dropLast_cons₂]
      show (!s.is_finished && allNotFinished ((s1 :: player_trace s1 is).dropLast)) = true
      rw [h, ih s1 h1]
      rfl

/-- Witness for C4: a concrete two-iteration run (one quiet tick, then
natural exhaustion) in which every non-final trace state is
unfinished. -/
theorem c4_witness :
    allNotFinished ((create_player_state 0 ::
      player_trace (create_player_state 0)
        [⟨none, 0, NANOS, false⟩, ⟨none, 0, 2 * NANOS, true⟩]).dropLast)
      = true :=
  c4_finished_at_most_once
    [⟨none, 0, NANOS, false⟩, ⟨none, 0, 2 * NANOS, true⟩]
    (create_player_state 0) rfl

end Player
